import Mathlib

/-
Verification development for the metrics-tabularization pipeline of the
code-kube repository.  The definitions below are a shallow embedding of
`src/data_collection/collector.py` (class KubernetesMetricsCollector,
methods `process_metrics` and `process_events`) and of
`collect_training_data.py` (`generate_datasets`).  Timestamps are modelled
as integers (whole unix seconds), sample values as the strings found in
the raw JSON, and Python dicts as association lists in insertion order.
-/

namespace CodeKube

/-- A raw metric time series: ordered (unix timestamp, value) samples, one
entry of the nested structure `category -> metric -> entity -> series` that
`process_metrics` consumes (spec section 6 input contract). -/
abbrev TimeSeries := List (Int × String)

/-- One metric of a category: entity key to series, in dict insertion order. -/
abbrev MetricData := List (String × TimeSeries)

/-- Enhanced-category metric payload: `process_metrics` (collector.py lines
331-339) branches on whether the payload is a dict of per-item series or a
bare series list. -/
inductive EnhancedData where
  | dict : List (String × TimeSeries) → EnhancedData
  | flat : TimeSeries → EnhancedData
deriving DecidableEq

/-- An event record as read back from the raw JSON: `process_events` reads the
keys "type", "reason" and "last_timestamp" with dict .get, so each may be
absent. -/
structure EventRecord where
  etype : Option String
  reason : Option String
  last_timestamp : Option String
deriving DecidableEq

/-- One collection run's raw structure, as `process_metrics` reads it from the
saved JSON file: the "node" and "pod" categories, the enhanced categories
(looked up by name), the event list and the scenario label from the
metadata. -/
structure RunInput where
  node : List (String × MetricData)
  pod : List (String × MetricData)
  enhanced : List (String × List (String × EnhancedData))
  events : List EventRecord
  cluster_issue_type : String

/-- A produced row: column name to cell value, in dict insertion order. -/
abbrev Row := List (String × String)

/-- The fixed category list `KubernetesMetricsCollector.METRICS_CATEGORIES`
(collector.py lines 18-30). -/
def METRICS_CATEGORIES : List String :=
  ["container_runtime", "service", "apiserver", "etcd", "loadbalancer",
   "ingress", "crd", "scheduling", "resource_quota", "node", "pod"]

/-- Column names of a row, in order. -/
def keys (r : Row) : List String := r.map Prod.fst

/-- First-match association lookup (Python dict access on the unique-keyed
dicts built below). -/
def alookup {α : Type} (r : List (String × α)) (k : String) : Option α :=
  match r with
  | [] => none
  | p :: rest => if p.1 = k then some p.2 else alookup rest k

/-- Python dict assignment `row[k] = v`: update in place when the key exists,
else append at the end. -/
def dictInsert (r : Row) (k v : String) : Row :=
  if r.any (fun p => p.1 = k) then
    r.map (fun p => if p.1 = k then (k, v) else p)
  else r ++ [(k, v)]

/-- Gregorian civil date from days since the unix epoch (standard
era-decomposition algorithm), used to model `datetime.fromtimestamp` taken
in UTC (the source uses the machine's local zone). -/
def civilFromDays (z0 : Int) : Int × Nat × Nat :=
  let z := z0 + 719468
  let era := z.fdiv 146097
  let doe := (z - era * 146097).toNat
  let yoe := (doe - doe / 1460 + doe / 36524 - doe / 146096) / 365
  let y := (yoe : Int) + era * 400
  let doy := doe - (365 * yoe + yoe / 4 - yoe / 100)
  let mp := (5 * doy + 2) / 153
  let d := doy - (153 * mp + 2) / 5 + 1
  let m := if mp < 10 then mp + 3 else mp - 9
  (if m ≤ 2 then y + 1 else y, m, d)

/-- Two-digit zero padding, as strftime produces. -/
def pad2 (n : Nat) : String := if n < 10 then "0" ++ toString n else toString n

/-- Models `datetime.fromtimestamp(t).strftime("%Y-%m-%d %H:%M:%S")`
(collector.py lines 306-310), with the epoch conversion taken in UTC. -/
def formatTs (t : Int) : String :=
  let days := t.fdiv 86400
  let rem := (t - days * 86400).toNat
  let c := civilFromDays days
  toString c.1 ++ "-" ++ pad2 c.2.1 ++ "-" ++ pad2 c.2.2 ++ " " ++
    pad2 (rem / 3600) ++ ":" ++ pad2 (rem / 60 % 60) ++ ":" ++ pad2 (rem % 60)

/-- Python str.split on the bar character: every bar separates two pieces,
and the empty string yields one empty piece. -/
def splitOnBar (cs : List Char) : List (List Char) :=
  match cs with
  | [] => [[]]
  | c :: rest =>
    let r := splitOnBar rest
    if c = '|' then [] :: r
    else
      match r with
      | [] => [[c]]
      | h :: t => (c :: h) :: t

/-- Models `pod_key.split("|")` followed by two-name unpacking with the
`if "|" in pod_key` fallback (collector.py line 322): a key "ns|pod" yields
(ns, pod); a key with no bar yields (key, "").  A key with two or more bars
makes the source raise ValueError at the unpacking; that case is outside the
input contract and is mapped to the fallback here. -/
def splitPodKey (s : String) : String × String :=
  match (splitOnBar s.toList).map String.mk with
  | [ns, pod] => (ns, pod)
  | _ => (s, "")

/-- Timestamps of the first entity's series of a metric, or [] when the metric
has no entities (collector.py lines 289-291: the inner loop sets the list from
the first entity and breaks immediately). -/
def firstEntityTs (md : MetricData) : List Int :=
  match md with
  | [] => []
  | (_, s) :: _ => s.map Prod.fst

/-- The timestamp scan over one category (collector.py lines 288-293 and
297-302): per metric, only the first entity's series is examined; the first
non-empty such series supplies the timestamps. -/
def scanTimestamps : List (String × MetricData) → List Int
  | [] => []
  | (_, md) :: rest =>
    let ts := firstEntityTs md
    if ts.isEmpty then scanTimestamps rest else ts

/-- The grid of timestamps used for row production (collector.py lines
286-302): scan the node category, and only if that yields nothing, the pod
category.  Other categories are never consulted. -/
def getTimestamps (run : RunInput) : List Int :=
  let ts := scanTimestamps run.node
  if ts.isEmpty then scanTimestamps run.pod else ts

/-- The per-run flat list of (column name, source series) pairs in the exact
insertion order of `process_metrics` (lines 312-339): node metrics keyed by
the bare metric name, pod metrics keyed by metric_namespace_pod, then for
each enhanced category in METRICS_CATEGORIES order the dict payloads keyed by
category_metric_item and the flat payloads keyed by category_metric. -/
def cellSpecs (run : RunInput) : List (String × TimeSeries) :=
  ((run.node.map (fun p => p.2.map (fun q => (p.1, q.2)))).flatten)
  ++ ((run.pod.map (fun p => p.2.map (fun q =>
        (p.1 ++ "_" ++ (splitPodKey q.1).1 ++ "_" ++ (splitPodKey q.1).2,
         q.2)))).flatten)
  ++ ((METRICS_CATEGORIES.map (fun cat =>
        if cat = "node" ∨ cat = "pod" then []
        else
          match alookup run.enhanced cat with
          | none => []
          | some cms =>
            (cms.map (fun m =>
              match m.2 with
              | EnhancedData.dict items =>
                  items.map (fun it => (cat ++ "_" ++ m.1 ++ "_" ++ it.1, it.2))
              | EnhancedData.flat s => [(cat ++ "_" ++ m.1, s)])).flatten)).flatten)

/-- The (column, value) assignments performed at grid position i: a cell spec
contributes exactly when its series covers index i, with the value at that
index (the `if timestamp_index < len(time_series)` guards of lines 315, 323,
334 and 337). -/
def rowInserts (run : RunInput) (i : Nat) : List (String × String) :=
  (cellSpecs run).filterMap (fun p => (p.2.get? i).map (fun e => (p.1, e.2)))

/-- Sequential dict assignments into a row. -/
def applyInserts (r : Row) (l : List (String × String)) : Row :=
  l.foldl (fun r kv => dictInsert r kv.1 kv.2) r

/-- The row dict the loop body constructs for grid position i (collector.py
lines 305-342): the formatted timestamp first, then every covering metric
cell in scan order, then the label cell "issue_type" (line 342).  For a
non-empty grid the source fully constructs this dict for i = 0 and then
raises at line 345 (see process_metrics) before `rows.append(row)` at line
348 ever executes, so no constructed row is ever appended or persisted and
positions i ≥ 1 are never reached. -/
def buildRow (run : RunInput) (i : Nat) (t : Int) : Row :=
  dictInsert (applyInserts [("timestamp", formatTs t)] (rowInserts run i))
    "issue_type" run.cluster_issue_type

/-- The per-position row dicts of the loop, one per grid timestamp, as lines
305-348 would accumulate them were the line-345 call not to raise.  The
source reaches only the construction of the first of these (see buildRow and
process_metrics); none is ever appended, returned or persisted.  This names
what the row-construction code computes per position, not an output of the
program. -/
def tabularize (run : RunInput) : List Row :=
  (getTimestamps run).enum.map (fun p => buildRow run p.1 p.2)

/-- Value of a decimal digit character. -/
def digitVal (c : Char) : Option Nat :=
  if c.isDigit then some (c.toNat - 48) else none

/-- Two decimal digits. -/
def parse2 : List Char → Option (Nat × List Char)
  | a :: b :: rest => do
      let x ← digitVal a
      let y ← digitVal b
      pure (10 * x + y, rest)
  | _ => none

/-- Four decimal digits. -/
def parse4 : List Char → Option (Nat × List Char)
  | a :: b :: c :: d :: rest => do
      let x ← digitVal a
      let y ← digitVal b
      let z ← digitVal c
      let w ← digitVal d
      pure (1000 * x + 100 * y + 10 * z + w, rest)
  | _ => none

/-- Consume one expected character. -/
def expectChar (c : Char) : List Char → Option (List Char)
  | x :: rest => if x = c then some rest else none
  | [] => none

/-- Gregorian leap year. -/
def isLeap (y : Int) : Bool := (y % 4 = 0 ∧ y % 100 ≠ 0) ∨ y % 400 = 0

/-- Days in a month of a year. -/
def daysInMonth (y : Int) (m : Nat) : Nat :=
  if m = 2 then (if isLeap y then 29 else 28)
  else if m = 4 ∨ m = 6 ∨ m = 9 ∨ m = 11 then 30 else 31

/-- Days since the unix epoch of a civil date (inverse of civilFromDays, the
standard era decomposition). -/
def daysFromCivil (y0 : Int) (m d : Nat) : Int :=
  let y := if m ≤ 2 then y0 - 1 else y0
  let era := y.fdiv 400
  let yoe := (y - era * 400).toNat
  let mp := if m > 2 then m - 3 else m + 9
  let doy := (153 * mp + 2) / 5 + d - 1
  let doe := yoe * 365 + yoe / 4 - yoe / 100 + doy
  era * 146097 + (doe : Int) - 719468

/-- Seconds within the day of the time part HH[:MM[:SS]], validating ranges as
datetime.fromisoformat does. -/
def parseTimePart (cs : List Char) : Option (Nat × List Char) := do
  let (h, cs1) ← parse2 cs
  if h > 23 then none else
  match cs1 with
  | ':' :: cs2 => do
    let (mi, cs3) ← parse2 cs2
    if mi > 59 then none else
    match cs3 with
    | ':' :: cs4 => do
      let (s, cs5) ← parse2 cs4
      if s > 59 then none else pure (3600 * h + 60 * mi + s, cs5)
    | _ => pure (3600 * h + 60 * mi, cs3)
  | _ => pure (3600 * h, cs1)

/-- Drop a leading run of digits. -/
def skipDigits : List Char → List Char
  | c :: rest => if c.isDigit then skipDigits rest else c :: rest
  | [] => []

/-- An optional fractional-seconds part: a dot followed by at least one
digit.  Its value does not reach whole-second binning and is dropped. -/
def skipFraction (cs : List Char) : Option (List Char) :=
  match cs with
  | '.' :: c :: rest => if c.isDigit then some (skipDigits rest) else none
  | '.' :: [] => none
  | _ => some cs

/-- An optional trailing UTC offset sign HH:MM.  The offset must be
syntactically valid for fromisoformat to accept the string, but its value is
discarded afterwards: process_events strips an aware timestamp back to its
wall-clock value with tz_localize(None) (collector.py lines 396-397). -/
def parseOffset (cs : List Char) : Option Unit :=
  match cs with
  | [] => some ()
  | sign :: rest =>
    if sign = '+' ∨ sign = '-' then do
      let (h, cs1) ← parse2 rest
      if h > 23 then none else
      match cs1 with
      | ':' :: cs2 => do
        let (mi, cs3) ← parse2 cs2
        if mi > 59 then none
        else match cs3 with
          | [] => some ()
          | _ => none
      | _ => none
    else none

/-- Models datetime.fromisoformat on the shapes
YYYY-MM-DD[sHH[:MM[:SS]][.digits]][+HH:MM] (s any single separator
character), composed with the wall-clock reading that process_events then
applies (the offset is validated, not applied).  Returns wall-clock unix
seconds; none models the ValueError on any other string. -/
def parseISO (s : String) : Option Int := do
  let (y, cs1) ← parse4 s.toList
  if y = 0 then none else
  let cs2 ← expectChar '-' cs1
  let (mo, cs3) ← parse2 cs2
  let cs4 ← expectChar '-' cs3
  let (d, cs5) ← parse2 cs4
  if mo < 1 ∨ mo > 12 ∨ d < 1 ∨ d > daysInMonth (y : Int) mo then none else
  let date := daysFromCivil (y : Int) mo d * 86400
  match cs5 with
  | [] => pure date
  | _sep :: rest => do
    let (secs, cs6) ← parseTimePart rest
    let cs7 ← skipFraction cs6
    let _ ← parseOffset cs7
    pure (date + (secs : Int))

/-- Models the Python str.replace("Z", "+00:00") applied at collector.py
line 388 before parsing. -/
def replaceZ (s : String) : String :=
  String.mk ((s.toList.map (fun c =>
    if c = 'Z' then ['+', '0', '0', ':', '0', '0'] else [c])).flatten)

/-- ASCII lowercase of one character (models Python str.lower on the ASCII
names used here; implemented directly so it reduces definitionally). -/
def lowerChar (c : Char) : Char :=
  if 'A' ≤ c ∧ c ≤ 'Z' then Char.ofNat (c.toNat + 32) else c

/-- ASCII lowercase of a string. -/
def lowerStr (s : String) : String := String.mk (s.toList.map lowerChar)

/-- The tracked event types (collector.py line 371). -/
def event_types : List String := ["Normal", "Warning", "Error"]

/-- The tracked event reasons (collector.py line 376). -/
def event_reasons : List String :=
  ["Killing", "Created", "Started", "BackOff", "Failed", "Unhealthy"]

/-- The event frame: column name to the per-grid-position values. -/
abbrev EventDF := List (String × List Nat)

/-- The zero-initialized event frame (collector.py lines 368-378): one count
column per tracked type, then one indicator column per tracked reason. -/
def initEventDF (n : Nat) : EventDF :=
  event_types.map (fun t => ("event_" ++ lowerStr t ++ "_count", List.replicate n 0))
  ++ event_reasons.map (fun r => ("event_reason_" ++ lowerStr r, List.replicate n 0))

/-- Point update of one cell of the event frame. -/
def updateCol (df : EventDF) (col : String) (j : Nat) (f : Nat → Nat) : EventDF :=
  df.map (fun p => if p.1 = col then (p.1, p.2.set j (f (p.2.getD j 0))) else p)

/-- Position of the grid timestamp nearest to t, first occurrence on ties
(np.abs(index - ts).argmin(), collector.py line 401). -/
def argminAbs (grid : List Int) (t : Int) : Nat :=
  (grid.enum.foldl (fun b p =>
      if (p.2 - t).natAbs < b.2 then (p.1, (p.2 - t).natAbs) else b)
    (0, ((grid.headD 0) - t).natAbs)).1

/-- Models process_events (collector.py lines 365-411) over the event list
and the timestamp grid its body treats as the index.  Note the call site:
process_metrics line 345 passes the integer loop position as index and
discards the returned frame, so in the source the output of this function
never reaches the produced rows.  An event whose last_timestamp is absent or
empty (falsy) is skipped; one whose last_timestamp is present but not
parseable raises ValueError inside the loop, which propagates — modelled as
the error case. -/
def process_events (events : List EventRecord) (grid : List Int) :
    Except String EventDF :=
  events.foldlM (fun df ev =>
    let event_type := ev.etype.getD "Unknown"
    let reason := ev.reason.getD "Unknown"
    match ev.last_timestamp with
    | none => pure df
    | some s =>
      if s = "" then pure df
      else
        match parseISO (replaceZ s) with
        | none => Except.error "ValueError: invalid isoformat string"
        | some t =>
          if grid.isEmpty then pure df
          else
            let j := argminAbs grid t
            let df1 := if event_types.contains event_type then
                updateCol df ("event_" ++ lowerStr event_type ++ "_count") j
                  (fun v => v + 1)
              else df
            let df2 := if event_reasons.contains reason then
                updateCol df1 ("event_reason_" ++ lowerStr reason) j (fun _ => 1)
              else df1
            pure df2)
    (initEventDF grid.length)

/-- The pandas error raised by pd.DataFrame(index=<scalar>): ensure_index is
applied to any non-None index and Index(<scalar>) raises this TypeError. -/
def pandasTypeError : String :=
  "TypeError: Index(...) must be called with a collection of some kind"

/-- The index argument of process_events as Python receives it: the source at
collector.py line 345 passes the integer loop position (timestamp_index),
while the function body is written for a timestamp collection. -/
inductive IndexArg where
  | position : Nat → IndexArg
  | timestamps : List Int → IndexArg

/-- Models pd.DataFrame(index=index) at collector.py line 368: pandas raises
TypeError on a scalar index; a collection becomes the empty frame's index,
represented here by the collection itself. -/
def pdEmptyFrame : IndexArg → Except String (List Int)
  | IndexArg.position _ => Except.error pandasTypeError
  | IndexArg.timestamps g => Except.ok g

/-- process_events as actually invoked: the frame construction at line 368
runs before anything else in the function body, so with the scalar index the
caller passes it raises before any event is examined; with a timestamp
collection the body proceeds as process_events. -/
def process_events_called (events : List EventRecord) (index : IndexArg) :
    Except String EventDF := do
  let g ← pdEmptyFrame index
  process_events events g

/-- Top level of process_metrics (collector.py lines 259-363).  When the grid
is empty, the loop body never runs, no row is produced, nothing is written
("No data to write!") and the method still returns its output path — there
is no EmptyGridError or any other raise in the method itself.  When the grid
is non-empty, the first loop iteration (timestamp_index = 0) builds the row
dict of lines 305-342 and then line 345 calls process_events with the
INTEGER loop position; pd.DataFrame(index=0) at line 368 raises TypeError,
which propagates before `rows.append(row)` at line 348 ever executes — so
every non-empty-grid run fails and persists nothing.  The ok branch after
the bind records what the remainder of the method would do (accumulate one
row per timestamp and write the CSV) and is unreachable for a non-empty
grid.  The Bool records whether a CSV file was written. -/
def process_metrics (run : RunInput) : Except String (List Row × Bool) :=
  match getTimestamps run with
  | [] => Except.ok ([], false)
  | _ :: _ => do
      let _ ← process_events_called run.events (IndexArg.position 0)
      Except.ok (tabularize run, true)

/-- Models the CSV write (collector.py lines 350-357) with csv.DictWriter
semantics: fieldnames are the first row's keys; a row holding a key outside
the fieldnames makes DictWriter raise ValueError; a fieldname absent from a
row is emitted as the empty field (the restval default).  Returns the header
and the field rows.  In the source this code is reached only on the
empty-grid path, where rows is empty and nothing is written: a non-empty
grid crashes at line 345 before the write (see process_metrics). -/
def writeCSV (rows : List Row) : Except String (List String × List (List String)) :=
  match rows with
  | [] => Except.ok ([], [])
  | r0 :: _ =>
    let headers := keys r0
    if rows.all (fun r => (keys r).all (fun k => headers.contains k)) then
      Except.ok (headers,
        rows.map (fun r => headers.map (fun h => (alookup r h).getD "")))
    else Except.error "ValueError: dict contains fields not in fieldnames"

/-- Every RawSeries appearing anywhere in the run structure. -/
def allRunSeries (run : RunInput) : List TimeSeries :=
  (run.node.map (fun p => p.2.map Prod.snd)).flatten
  ++ (run.pod.map (fun p => p.2.map Prod.snd)).flatten
  ++ ((run.enhanced.map (fun c => (c.2.map (fun m =>
        match m.2 with
        | EnhancedData.dict items => items.map Prod.snd
        | EnhancedData.flat s => [s])).flatten)).flatten)

/-- Written from the words of the spec (section 4.1) for comparison with the
grid the code derives: scan categories, metrics and entities in a fixed
deterministic order (node, pod, then the enhanced categories in
METRICS_CATEGORIES order) and take the timestamps, in original order, of the
first RawSeries encountered that has at least one sample; every entity of
every metric is a candidate. -/
def specGrid (run : RunInput) : List Int :=
  let allSeries : List TimeSeries :=
    (run.node.map (fun p => p.2.map Prod.snd)).flatten
    ++ (run.pod.map (fun p => p.2.map Prod.snd)).flatten
    ++ ((METRICS_CATEGORIES.map (fun cat =>
          if cat = "node" ∨ cat = "pod" then []
          else match alookup run.enhanced cat with
            | none => []
            | some cms => (cms.map (fun m =>
                match m.2 with
                | EnhancedData.dict items => items.map Prod.snd
                | EnhancedData.flat s => [s])).flatten)).flatten)
  match allSeries.find? (fun s => !s.isEmpty) with
  | some s => s.map Prod.fst
  | none => []

/-- The grid rule the code implements, restated without the scan recursion:
the first non-empty list among the first-entity timestamp lists of the node
metrics followed by those of the pod metrics. -/
def amendedGrid (run : RunInput) : List Int :=
  (((run.node ++ run.pod).map (fun p => firstEntityTs p.2)).find?
    (fun l => !l.isEmpty)).getD []

/-- Python int() truncation of an exact rational toward zero. -/
def pyInt (q : ℚ) : Int := if 0 ≤ q then ⌊q⌋ else -⌊-q⌋

/-- Models the builtin round() of Python named by claim C8: round half to
even on an exact rational. -/
def pythonRound (q : ℚ) : Int :=
  if q - ⌊q⌋ < 1/2 then ⌊q⌋
  else if q - ⌊q⌋ > 1/2 then ⌊q⌋ + 1
  else if 2 ∣ ⌊q⌋ then ⌊q⌋ else ⌊q⌋ + 1

/-- The concatenation step of generate_datasets (collect_training_data.py
line 151): pd.concat stacks the loaded per-run tables. -/
def combineRows (ms : List (List Row)) : List Row := ms.flatten

/-- The split step of generate_datasets (collect_training_data.py lines
153-159), applied to the already shuffled combined rows (the shuffle
sample(frac=1.0, random_state=42) is a fixed-seed permutation whose exact
order is a pandas implementation detail, so the shuffled sequence is this
definition's argument): test_size = int(len(rows) * test_split) rows are
taken from the front as the test set and the remainder is the training set.
The float product is modelled as the exact rational product.  Returns
(train, test). -/
def splitDataset (shuffled : List Row) (test_split : ℚ) : List Row × List Row :=
  let test_size := (pyInt ((shuffled.length : ℚ) * test_split)).toNat
  (shuffled.drop test_size, shuffled.take test_size)

/-- The statistics step of generate_datasets (collect_training_data.py line
174): the column access combined_df["cluster_issue_type"] yields the label
cells when the column exists and raises KeyError otherwise. -/
def labelColumn (rows : List Row) : Except String (List String) :=
  match rows with
  | [] => Except.error "KeyError: cluster_issue_type"
  | r0 :: _ =>
    if (keys r0).contains "cluster_issue_type" then
      Except.ok (rows.map (fun r => (alookup r "cluster_issue_type").getD ""))
    else Except.error "KeyError: cluster_issue_type"

/-! Helper lemmas about the row dictionary operations. -/

theorem keys_map_update (r : Row) (k v : String) :
    keys (r.map (fun p => if p.1 = k then (k, v) else p)) = keys r := by
  unfold keys
  rw [List.map_map]
  apply List.map_congr_left
  intro p _
  by_cases h : p.1 = k <;> simp [Function.comp, h]

theorem mem_keys_dictInsert {r : Row} {k v q : String} :
    q ∈ keys (dictInsert r k v) ↔ q = k ∨ q ∈ keys r := by
  unfold dictInsert
  by_cases h : r.any (fun p => p.1 = k)
  · rw [if_pos h, keys_map_update]
    simp only [List.any_eq_true, decide_eq_true_eq] at h
    obtain ⟨p, hp, hpk⟩ := h
    have hk : k ∈ keys r := List.mem_map.mpr ⟨p, hp, hpk⟩
    constructor
    · exact Or.inr
    · rintro (rfl | hm)
      · exact hk
      · exact hm
  · rw [if_neg h]
    unfold keys
    rw [List.map_append, List.mem_append]
    simp [or_comm]

theorem mem_keys_applyInserts {l : List (String × String)} :
    ∀ {r : Row} {q : String},
      q ∈ keys (applyInserts r l) ↔ q ∈ keys r ∨ q ∈ l.map Prod.fst := by
  induction l with
  | nil => intro r q; simp [applyInserts]
  | cons a l ih =>
    intro r q
    have hstep : applyInserts r (a :: l) = applyInserts (dictInsert r a.1 a.2) l := by
      simp [applyInserts]
    rw [hstep, ih, mem_keys_dictInsert, List.map_cons, List.mem_cons]
    tauto

theorem mem_keys_rowInserts {run : RunInput} {i : Nat} {q : String} :
    q ∈ (rowInserts run i).map Prod.fst ↔
      ∃ s, (q, s) ∈ cellSpecs run ∧ i < s.length := by
  unfold rowInserts
  constructor
  · intro h
    obtain ⟨kv, hkv, hfst⟩ := List.mem_map.mp h
    obtain ⟨p, hp, hpe⟩ := List.mem_filterMap.mp hkv
    obtain ⟨e, hge, hkve⟩ := Option.map_eq_some'.mp hpe
    have hlen : i < p.2.length := (List.get?_eq_some.mp hge).1
    have hq : p.1 = q := by rw [← hkve] at hfst; exact hfst
    exact ⟨p.2, by rw [← hq]; exact hp, hlen⟩
  · rintro ⟨s, hs, hlen⟩
    have hge : s.get? i = some (s.get ⟨i, hlen⟩) := List.get?_eq_get hlen
    refine List.mem_map.mpr
      ⟨(q, (s.get ⟨i, hlen⟩).2), List.mem_filterMap.mpr ⟨(q, s), hs, ?_⟩, rfl⟩
    rw [hge]; rfl

theorem mem_keys_buildRow {run : RunInput} {i : Nat} {t : Int} {q : String} :
    q ∈ keys (buildRow run i t) ↔
      q = "issue_type" ∨ q = "timestamp" ∨
        ∃ s, (q, s) ∈ cellSpecs run ∧ i < s.length := by
  unfold buildRow
  rw [mem_keys_dictInsert, mem_keys_applyInserts, mem_keys_rowInserts]
  simp [keys]

theorem alookup_eq_none {α : Type} {r : List (String × α)} {k : String} :
    alookup r k = none ↔ k ∉ r.map Prod.fst := by
  induction r with
  | nil => simp [alookup]
  | cons p rest ih =>
    simp only [alookup, List.map_cons, List.mem_cons]
    by_cases h : p.1 = k
    · simp [h]
    · rw [if_neg h, ih]
      constructor
      · intro hm hc
        rcases hc with hc | hc
        · exact h (hc ▸ rfl)
        · exact hm hc
      · intro hm hc
        exact hm (Or.inr hc)

/-! Helper lemmas about the grid scan and the produced table. -/

theorem scanTimestamps_eq_find (ms : List (String × MetricData)) :
    scanTimestamps ms =
      ((ms.map (fun p => firstEntityTs p.2)).find? (fun l => !l.isEmpty)).getD [] := by
  induction ms with
  | nil => rfl
  | cons p rest ih =>
    rw [scanTimestamps, List.map_cons, List.find?_cons]
    by_cases h : (firstEntityTs p.2).isEmpty
    · simp [h, ih]
    · simp [h]

theorem scanTimestamps_eq_nil_of_empty (ms : List (String × MetricData))
    (h : ∀ p ∈ ms, ∀ q ∈ p.2, q.2 = ([] : TimeSeries)) : scanTimestamps ms = [] := by
  induction ms with
  | nil => rfl
  | cons p rest ih =>
    rw [scanTimestamps]
    have hfe : firstEntityTs p.2 = [] := by
      unfold firstEntityTs
      cases hm : p.2 with
      | nil => rfl
      | cons q tl =>
        obtain ⟨qk, qs⟩ := q
        show List.map Prod.fst qs = []
        have hqs : qs = [] :=
          h p (List.mem_cons_self p rest) (qk, qs)
            (by rw [hm]; exact List.mem_cons_self _ _)
        rw [hqs]
        rfl
    rw [hfe]
    exact ih (fun p hp q hq => h p (List.mem_cons_of_mem _ hp) q hq)

/-- Every run with a non-empty grid fails: the first loop iteration reaches
line 345, which passes the integer position 0, and the frame construction at
line 368 raises TypeError — before any rows.append and before any write. -/
theorem process_metrics_crash (run : RunInput) (h : getTimestamps run ≠ []) :
    process_metrics run = Except.error pandasTypeError := by
  unfold process_metrics
  cases hg : getTimestamps run with
  | nil => exact absurd hg h
  | cons t ts => rfl

/-! Concrete runs used by counterexamples and witnesses. -/

/-- A run whose metric m2 covers only grid positions 0 and 1 of the four-point
grid supplied by m1. -/
def fillRun : RunInput := {
  node := [("m1", [("n", [(0, "1"), (15, "2"), (30, "3"), (45, "4")])]),
           ("m2", [("n", [(0, "5"), (15, "6")])])],
  pod := [], enhanced := [], events := [], cluster_issue_type := "resource" }

/-- A minimal two-row run used for the label-column claim. -/
def labelRun : RunInput := {
  node := [("node_cpu_usage", [("node1", [(0, "0.5"), (15, "0.6")])])],
  pod := [], enhanced := [], events := [], cluster_issue_type := "network" }

/-- A run with two nodes reporting the same metric and a pod metric whose key
has no namespace separator. -/
def nameRun : RunInput := {
  node := [("node_cpu_usage", [("n1", [(0, "1")]), ("n2", [(0, "2")])])],
  pod := [("pod_cpu_usage", [("p1", [(0, "3")])])],
  enhanced := [], events := [], cluster_issue_type := "network" }

/-- A run whose first node metric has an empty first entity and a non-empty
second entity. -/
def gridRun : RunInput := {
  node := [("m", [("n1", []), ("n2", [(7, "1")])])],
  pod := [], enhanced := [], events := [], cluster_issue_type := "x" }

/-- A run whose metric m2 has an empty series while m1 supplies a four-point
grid. -/
def c1Run : RunInput := {
  node := [("m1", [("n", [(0, "1"), (15, "2"), (30, "3"), (45, "4")])]),
           ("m2", [("n", [])])],
  pod := [], enhanced := [], events := [], cluster_issue_type := "resource" }

/-- C1 counterexample: the m2 column (whose series is empty) is absent from
the one row dict the loop body constructs (position 0, lines 305-342,
completed before line 345 raises) — it is not zero-filled as the claimed
fill policy requires — and the pipeline then raises at line 345, so no
matrix is persisted at all, filled or otherwise. -/
theorem c1_fill_policy_cex :
    keys (buildRow c1Run 0 0) = ["timestamp", "m1", "issue_type"] ∧
    alookup (buildRow c1Run 0 0) "m2" = none ∧
    process_metrics c1Run = Except.error pandasTypeError := ⟨rfl, rfl, rfl⟩

/-- C1 (amended): no fill policy exists anywhere, and for every run with a
non-empty grid process_metrics raises the pandas TypeError at the line-345
call before appending any row, so no matrix is ever persisted; in the one
row dict the loop body does construct (grid position 0), a column all of
whose source series are empty is simply absent — not zero-filled. -/
theorem c1_no_fill_uncovered_cell_absent (run : RunInput) (t : Int) (k : String)
    (hcov : ∀ p ∈ cellSpecs run, p.1 = k → p.2 = [])
    (ht : k ≠ "timestamp") (hl : k ≠ "issue_type") :
    (getTimestamps run ≠ [] → process_metrics run = Except.error pandasTypeError) ∧
    alookup (buildRow run 0 t) k = none := by
  refine ⟨process_metrics_crash run, ?_⟩
  rw [alookup_eq_none]
  intro hk
  rw [show (buildRow run 0 t).map Prod.fst = keys (buildRow run 0 t) from rfl,
      mem_keys_buildRow] at hk
  rcases hk with h | h | ⟨s, hs, hi⟩
  · exact hl h
  · exact ht h
  · have hs0 : s = [] := hcov (k, s) hs rfl
    rw [hs0] at hi
    exact absurd hi (by simp)

/-- C1 witness: the amended theorem applied at c1Run, column m2. -/
theorem c1_no_fill_witness :
    process_metrics c1Run = Except.error pandasTypeError ∧
    alookup (buildRow c1Run 0 0) "m2" = none :=
  ⟨(c1_no_fill_uncovered_cell_absent c1Run 0 "m2" (by decide) (by decide)
      (by decide)).1 (by decide),
   (c1_no_fill_uncovered_cell_absent c1Run 0 "m2" (by decide) (by decide)
      (by decide)).2⟩

/-- C4 (code_bug): the row dict the loop body constructs (position 0, lines
305-342, completed before line 345 raises) has the formatted timestamp as
its first cell and its final key is issue_type — not the cluster_issue_type
name the downstream consumer looks up — and process_metrics then raises the
pandas TypeError, persisting nothing. -/
theorem c4_label_column_name_mismatch :
    (buildRow labelRun 0 0).head? = some ("timestamp", "1970-01-01 00:00:00") ∧
    (keys (buildRow labelRun 0 0)).getLast? = some "issue_type" ∧
    alookup (buildRow labelRun 0 0) "cluster_issue_type" = none ∧
    process_metrics labelRun = Except.error pandasTypeError :=
  ⟨rfl, rfl, rfl, rfl⟩

/-- C5 counterexample: in the row dict constructed at position 0 (before the
line-345 crash) the two nodes share the single bare column node_cpu_usage,
holding the last scanned node's value "2", and the bar-less pod key yields
pod_cpu_usage_p1_ with an empty final part — no node-name discriminator and
no unknown default — and the pipeline then raises, persisting no columns at
all. -/
theorem c5_column_naming_cex :
    keys (buildRow nameRun 0 0) =
      ["timestamp", "node_cpu_usage", "pod_cpu_usage_p1_", "issue_type"] ∧
    alookup (buildRow nameRun 0 0) "node_cpu_usage" = some "2" ∧
    process_metrics nameRun = Except.error pandasTypeError := ⟨rfl, rfl, rfl⟩

/-- C5 (amended): no feature columns are ever persisted — every non-empty
grid run raises at the line-345 call — and in the row dict the loop body
does construct (grid position 0, lines 312-339), a node series with a sample
contributes a column named by the bare metric name (all entities of a metric
share it), while a pod series contributes metric_namespace_pod obtained by
splitting the pod key at the bar (empty pod part when there is no bar); no
unknown default exists. -/
theorem c5_column_names_as_implemented (run : RunInput) (t : Int)
    (m ek : String) (md : MetricData) (s : TimeSeries)
    (he : (ek, s) ∈ md) (hc : 0 < s.length) :
    (getTimestamps run ≠ [] → process_metrics run = Except.error pandasTypeError) ∧
    ((m, md) ∈ run.node → m ∈ keys (buildRow run 0 t)) ∧
    ((m, md) ∈ run.pod →
      (m ++ "_" ++ (splitPodKey ek).1 ++ "_" ++ (splitPodKey ek).2) ∈
        keys (buildRow run 0 t)) := by
  refine ⟨process_metrics_crash run, ?_, ?_⟩
  · intro hm
    rw [mem_keys_buildRow]
    refine Or.inr (Or.inr ⟨s, ?_, hc⟩)
    unfold cellSpecs
    refine List.mem_append_left _ (List.mem_append_left _ ?_)
    have h1 : md.map (fun q => (m, q.2)) ∈
        run.node.map (fun p => p.2.map (fun q => (p.1, q.2))) :=
      List.mem_map.mpr ⟨(m, md), hm, rfl⟩
    have h2 : (m, s) ∈ md.map (fun q => (m, q.2)) :=
      List.mem_map.mpr ⟨(ek, s), he, rfl⟩
    exact List.mem_flatten_of_mem h1 h2
  · intro hm
    rw [mem_keys_buildRow]
    refine Or.inr (Or.inr ⟨s, ?_, hc⟩)
    unfold cellSpecs
    refine List.mem_append_left _ (List.mem_append_right _ ?_)
    have h1 : md.map (fun q =>
          (m ++ "_" ++ (splitPodKey q.1).1 ++ "_" ++ (splitPodKey q.1).2, q.2)) ∈
        run.pod.map (fun p => p.2.map (fun q =>
          (p.1 ++ "_" ++ (splitPodKey q.1).1 ++ "_" ++ (splitPodKey q.1).2,
           q.2))) :=
      List.mem_map.mpr ⟨(m, md), hm, rfl⟩
    have h2 : (m ++ "_" ++ (splitPodKey ek).1 ++ "_" ++ (splitPodKey ek).2, s) ∈
        md.map (fun q =>
          (m ++ "_" ++ (splitPodKey q.1).1 ++ "_" ++ (splitPodKey q.1).2, q.2)) :=
      List.mem_map.mpr ⟨(ek, s), he, rfl⟩
    exact List.mem_flatten_of_mem h1 h2

/-- C5 witness: the amended theorem applied at nameRun (crash and both
naming rules at grid position 0). -/
theorem c5_column_names_witness :
    process_metrics nameRun = Except.error pandasTypeError ∧
    "node_cpu_usage" ∈ keys (buildRow nameRun 0 0) ∧
    ("pod_cpu_usage" ++ "_" ++ (splitPodKey "p1").1 ++ "_" ++ (splitPodKey "p1").2)
      ∈ keys (buildRow nameRun 0 0) :=
  ⟨(c5_column_names_as_implemented nameRun 0 "node_cpu_usage" "n1"
      [("n1", [(0, "1")]), ("n2", [(0, "2")])] [(0, "1")] (by decide) (by decide)).1
      (by decide),
   (c5_column_names_as_implemented nameRun 0 "node_cpu_usage" "n1"
      [("n1", [(0, "1")]), ("n2", [(0, "2")])] [(0, "1")] (by decide) (by decide)).2.1
      (by decide),
   (c5_column_names_as_implemented nameRun 0 "pod_cpu_usage" "p1"
      [("p1", [(0, "3")])] [(0, "3")] (by decide) (by decide)).2.2 (by decide)⟩

/-- C6 counterexample: the code derives an empty grid from gridRun although
the first series with a sample (entity n2) has timestamp 7 — later entities
of a metric are never consulted, refuting the claimed scan over all
entities. -/
theorem c6_grid_scan_cex :
    getTimestamps gridRun = [] ∧ specGrid gridRun = [7] ∧
    getTimestamps gridRun ≠ specGrid gridRun := ⟨rfl, rfl, by decide⟩

/-- C6 (amended): the grid equals the first non-empty first-entity timestamp
list among the node metrics followed by the pod metrics, in scan order —
entities after the first of each metric and all other categories are never
consulted, and no merging of timestamp sets occurs. -/
theorem c6_grid_eq_first_entity_rule (run : RunInput) :
    getTimestamps run = amendedGrid run := by
  unfold getTimestamps amendedGrid
  rw [scanTimestamps_eq_find run.node, scanTimestamps_eq_find run.pod,
      List.map_append, List.find?_append]
  cases hn : (run.node.map fun p => firstEntityTs p.2).find? (fun l => !l.isEmpty) with
  | none => simp
  | some l =>
    have hpl := List.find?_some hn
    rw [Bool.not_eq_true'] at hpl
    simp [hpl]

/-- C7 (code_bug): this run's grid has four timestamps, yet process_metrics
raises the pandas TypeError on the very first loop iteration — line 345
passes the integer position to the frame construction of line 368 — so no
matrix with len(grid) rows, indeed no row at all, is ever appended,
returned or persisted.  The same holds for every run with a non-empty grid
(see process_metrics_crash). -/
theorem c7_no_matrix_produced :
    (getTimestamps fillRun).length = 4 ∧
    process_metrics fillRun = Except.error pandasTypeError := ⟨rfl, rfl⟩

/-- A run matching the scenario of the event claim: four node samples at
timestamps 0, 15, 30, 45 and one Warning event whose timestamp (29) is
nearest to grid position 2. -/
def eventRun : RunInput := {
  node := [("node_cpu_usage", [("node1",
    [(0, "0.5"), (15, "0.6"), (30, "0.7"), (45, "0.8")])])],
  pod := [], enhanced := [],
  events := [{ etype := some "Warning", reason := some "NodeNotReady",
               last_timestamp := some "1970-01-01T00:00:29" }],
  cluster_issue_type := "resource" }

/-- C2 (code_bug): the binning function, given the timestamp grid its body is
written for, computes event_warning_count = [0,0,1,0] for the scenario; but
the source instead passes the integer loop position at line 345, so the
frame construction at line 368 raises TypeError, process_metrics aborts on
its first iteration, and no matrix — with or without event columns — is
ever produced or persisted. -/
theorem c2_event_columns_never_reach_matrix :
    Except.map (fun df => alookup df "event_warning_count")
        (process_events eventRun.events (getTimestamps eventRun)) =
      Except.ok (some [0, 0, 1, 0]) ∧
    process_events_called eventRun.events (IndexArg.position 0) =
      Except.error pandasTypeError ∧
    process_metrics eventRun = Except.error pandasTypeError := ⟨rfl, rfl, rfl⟩

/-- A run in which every series of every category is empty. -/
def emptyRun : RunInput := {
  node := [("m", [("n1", [])])],
  pod := [("pm", [("p1", [])])],
  enhanced := [("apiserver", [("am", EnhancedData.dict [("k", [])])])],
  events := [], cluster_issue_type := "none" }

/-- A second all-empty run, used by the witness. -/
def emptyRun2 : RunInput := {
  node := [], pod := [("pm", [("p1", []), ("p2", [])])],
  enhanced := [], events := [], cluster_issue_type := "x" }

/-- C3 counterexample: on a run with no samples anywhere, process_metrics
returns normally (zero rows, no CSV written) — no EmptyGridError or any
other failure is raised. -/
theorem c3_empty_grid_returns_ok_cex :
    process_metrics emptyRun = Except.ok ([], false) := rfl

/-- C3 (amended): when no series in the entire run has any samples, the grid
is empty, no row is produced, no CSV is written, and the method returns its
output path normally after printing "No data to write!" — it does not fail. -/
theorem c3_empty_run_no_rows_no_error (run : RunInput)
    (h : ∀ s ∈ allRunSeries run, s = []) :
    process_metrics run = Except.ok ([], false) := by
  have hnode : scanTimestamps run.node = [] := by
    apply scanTimestamps_eq_nil_of_empty
    intro p hp q hq
    apply h
    unfold allRunSeries
    refine List.mem_append_left _ (List.mem_append_left _ ?_)
    exact List.mem_flatten_of_mem (List.mem_map.mpr ⟨p, hp, rfl⟩)
      (List.mem_map.mpr ⟨q, hq, rfl⟩)
  have hpod : scanTimestamps run.pod = [] := by
    apply scanTimestamps_eq_nil_of_empty
    intro p hp q hq
    apply h
    unfold allRunSeries
    refine List.mem_append_left _ (List.mem_append_right _ ?_)
    exact List.mem_flatten_of_mem (List.mem_map.mpr ⟨p, hp, rfl⟩)
      (List.mem_map.mpr ⟨q, hq, rfl⟩)
  have hg : getTimestamps run = [] := by
    unfold getTimestamps
    rw [hnode, hpod]
    rfl
  unfold process_metrics
  rw [hg]

/-- C3 witness: the amended theorem at a concrete all-empty run. -/
theorem c3_empty_run_witness :
    process_metrics emptyRun2 = Except.ok ([], false) :=
  c3_empty_run_no_rows_no_error emptyRun2 (by decide)

/-- Three one-cell rows, the combined input of the split counterexample. -/
def rows3 : List Row := [[("a", "1")], [("a", "2")], [("a", "3")]]

/-- C8 counterexample: with three combined rows and test fraction one half,
the produced test set has int(1.5) = 1 row while the claimed round(1.5)
equals 2. -/
theorem c8_round_vs_int_cex :
    (splitDataset rows3 (1/2)).2.length = 1 ∧
    pythonRound ((rows3.length : ℚ) * (1/2)) = 2 := by
  have h3 : ((rows3.length : ℚ) * (1/2)) = 3/2 := by
    norm_num [rows3]
  constructor
  · have hfl : pyInt ((rows3.length : ℚ) * (1/2)) = 1 := by
      rw [h3]
      norm_num [pyInt]
    show (rows3.take (pyInt ((rows3.length : ℚ) * (1/2))).toNat).length = 1
    rw [hfl]
    rfl
  · rw [h3]
    have hfloor : ⌊(3/2 : ℚ)⌋ = 1 := by norm_num
    rw [pythonRound, hfloor]
    norm_num

/-- C8 (amended): the test set holds exactly int(test_fraction * N) rows —
truncation, not rounding — taken from the front of the shuffled combination,
and the train set the remainder; fraction 0 yields an empty test set and
fraction 1 an empty train set. -/
theorem c8_split_sizes_floor (rows : List Row) (f : ℚ) (h0 : 0 ≤ f) (h1 : f ≤ 1) :
    (splitDataset rows f).2.length = (⌊(rows.length : ℚ) * f⌋).toNat ∧
    (splitDataset rows f).1.length =
      rows.length - (⌊(rows.length : ℚ) * f⌋).toNat ∧
    (splitDataset rows f).2 = rows.take (⌊(rows.length : ℚ) * f⌋).toNat ∧
    (f = 0 → (splitDataset rows f).2 = []) ∧
    (f = 1 → (splitDataset rows f).1 = []) := by
  have hnn : 0 ≤ (rows.length : ℚ) * f := mul_nonneg (by positivity) h0
  have hpy : pyInt ((rows.length : ℚ) * f) = ⌊(rows.length : ℚ) * f⌋ := by
    unfold pyInt
    rw [if_pos hnn]
  have hle : (⌊(rows.length : ℚ) * f⌋).toNat ≤ rows.length := by
    rw [Int.toNat_le]
    have hb : (rows.length : ℚ) * f ≤ (rows.length : ℚ) := by
      calc (rows.length : ℚ) * f ≤ (rows.length : ℚ) * 1 :=
            mul_le_mul_of_nonneg_left h1 (by positivity)
        _ = (rows.length : ℚ) := mul_one _
    calc ⌊(rows.length : ℚ) * f⌋ ≤ ⌊((rows.length : Nat) : ℚ)⌋ :=
          Int.floor_le_floor hb
      _ = (rows.length : Int) := Int.floor_natCast _
  refine ⟨?_, ?_, ?_, ?_, ?_⟩
  · simp only [splitDataset, hpy, List.length_take]
    exact Nat.min_eq_left hle
  · simp only [splitDataset, hpy, List.length_drop]
  · simp only [splitDataset, hpy]
  · intro hf
    subst hf
    simp [splitDataset, pyInt]
  · intro hf
    subst hf
    simp [splitDataset, pyInt, List.drop_length]

/-- C8 witness: the amended split sizes at three rows and fraction one half. -/
theorem c8_split_sizes_witness :
    (0 ≤ (1/2 : ℚ)) ∧ ((1/2 : ℚ) ≤ 1) ∧
    (splitDataset rows3 (1/2)).2.length = (⌊(rows3.length : ℚ) * (1/2)⌋).toNat :=
  ⟨by norm_num, by norm_num,
   (c8_split_sizes_floor rows3 (1/2) (by norm_num) (by norm_num)).1⟩

/-- C9 counterexample: an event whose last_timestamp is present but not
parseable makes the whole binning call fail with the parse error instead of
being skipped. -/
theorem c9_unparseable_timestamp_aborts_cex :
    process_events
      [{ etype := some "Warning", reason := some "BackOff",
         last_timestamp := some "garbage" }] [0] =
      Except.error "ValueError: invalid isoformat string" := rfl

/-- C9 (amended): an event whose last_timestamp is absent (or empty, which
Python treats as falsy) is skipped locally and binning continues unchanged
on the remaining events; only a present, non-empty, unparseable timestamp
aborts the binning call. -/
theorem c9_missing_timestamp_event_skipped (ev : EventRecord)
    (es : List EventRecord) (grid : List Int)
    (h : ev.last_timestamp = none ∨ ev.last_timestamp = some "") :
    process_events (ev :: es) grid = process_events es grid := by
  obtain ⟨et, er, lt⟩ := ev
  rcases h with h | h <;>
    (simp only at h; subst h; simp [process_events, List.foldlM_cons])

/-- C9 witness: a timestamp-free Warning event contributes nothing and the
remaining events are still processed. -/
theorem c9_missing_timestamp_witness :
    process_events [{ etype := some "Warning", reason := some "BackOff",
                      last_timestamp := none }] [0] =
      process_events [] [0] :=
  c9_missing_timestamp_event_skipped
    { etype := some "Warning", reason := some "BackOff", last_timestamp := none }
    [] [0] (Or.inl rfl)

/-- A ragged run: m2 covers only the first of the three grid positions that
m1 supplies. -/
def c10Run : RunInput := {
  node := [("m1", [("n", [(0, "1"), (15, "2"), (30, "3")])]),
           ("m2", [("n", [(0, "5")])])],
  pod := [], enhanced := [], events := [], cluster_issue_type := "net" }

/-- C10 (code_bug): the DictWriter write of lines 350-357, whose
header-covers-every-row and empty-field-for-absent-key behavior the claim
describes, is never reached with rows: on this ragged run the pipeline
raises the pandas TypeError at line 345 during the first loop iteration,
before any rows.append, so no header is derived and no field is ever
written (the write code runs only on the empty-grid path, where rows is
empty and nothing is written). -/
theorem c10_write_never_reached :
    getTimestamps c10Run = [0, 15, 30] ∧
    process_metrics c10Run = Except.error pandasTypeError := ⟨rfl, rfl⟩

end CodeKube
